import Mathlib

/-!
Shallow embedding of scripts/sales_prediction.py: the feature-encoding and
prediction pipeline (CountVectorizer, OneHotEncoder with handle_unknown set
to ignore, MaxAbsScaler, RandomForestRegressor with ten trees), the startup
routine main, and the request handler MainWindow.predict. Machine floats are
idealised as rationals; the randomised forest produced by the library fit is
modelled as an explicit decision-tree datatype constrained by a validity
predicate (leaves average nonempty subsets of the training targets).
-/

namespace SalesPrediction

/-- One row of the training table data/vgsales.csv, restricted to the columns
the program reads: Name, Year, Platform, Genre, Publisher, Global_Sales. -/
structure Record where
  name : String
  year : Int
  platform : String
  genre : String
  publisher : String
  globalSales : ℚ
  deriving DecidableEq

/-- The in-memory training table produced by pd.read_csv. -/
abbrev Table := List Record

/-- Insert into a sorted duplicate-free list, dropping duplicates. -/
def insertSorted [DecidableEq α] (le : α → α → Bool) (a : α) : List α → List α
  | [] => [a]
  | b :: bs => if a = b then b :: bs else if le a b then a :: b :: bs else b :: insertSorted le a bs

/-- Sorted unique values of a list, as np.unique computes for the one-hot
category vocabularies and the combo-box item lists. -/
def dedupSort [DecidableEq α] (le : α → α → Bool) (l : List α) : List α :=
  l.foldr (insertSorted le) []

/-- Code-point lexicographic comparison of character lists, the order
np.unique uses on strings. -/
def listLeB : List Char → List Char → Bool
  | [], _ => true
  | _ :: _, [] => false
  | a :: as, b :: bs =>
    if a.toNat < b.toNat then true
    else if b.toNat < a.toNat then false
    else listLeB as bs

def strLeB (a b : String) : Bool := listLeB a.data b.data

def dedupSortStr (l : List String) : List String :=
  dedupSort strLeB l

def dedupSortInt (l : List Int) : List Int :=
  dedupSort (fun a b => decide (a ≤ b)) l

/-- A word character of the CountVectorizer default token pattern \w\w+. -/
def isWordChar (c : Char) : Bool := c.isAlphanum || c == '_'

/-- Close a token run: the default token pattern keeps runs of length two or
more word characters. -/
def pushToken (cur : List Char) (acc : List String) : List String :=
  if 2 ≤ cur.length then acc ++ [String.mk cur] else acc

def tokenizeAux : List Char → List Char → List String → List String
  | [], cur, acc => pushToken cur acc
  | c :: rest, cur, acc =>
    if isWordChar c then tokenizeAux rest (cur ++ [c]) acc
    else tokenizeAux rest [] (pushToken cur acc)

/-- CountVectorizer default analysis: lowercase the text, then split it into
runs of two or more word characters. -/
def tokenize (s : String) : List String :=
  tokenizeAux (s.data.map Char.toLower) [] []

/-- CountVectorizer.fit vocabulary: sorted unique tokens of all documents. -/
def vocabFit (docs : List String) : List String :=
  dedupSortStr (docs.map tokenize).flatten

/-- CountVectorizer.transform of a single document over a fitted vocabulary:
one count per vocabulary word; tokens outside the vocabulary contribute
nothing. -/
def countTransform (vocab : List String) (doc : String) : List ℚ :=
  vocab.map (fun w => ((tokenize doc).count w : ℚ))

/-- OneHotEncoder(handle_unknown="ignore") transform of one value of one
column: an indicator over the fitted categories, all zero for an unseen
value. -/
def oneHot [DecidableEq α] (cats : List α) (v : α) : List ℚ :=
  cats.map (fun c => if c = v then 1 else 0)

/-- Fitted MaxAbsScaler state: the per-column scale, with the zero maxima
already replaced by one as sklearn _handle_zeros_in_scale does. -/
structure MaxAbsScaler where
  scale : List ℚ
  deriving DecidableEq

/-- Maximum absolute value of column j of the training matrix. -/
def colMax (rows : List (List ℚ)) (j : Nat) : ℚ :=
  (rows.map (fun r => |r.getD j 0|)).foldr max 0

def MaxAbsScaler.fit (rows : List (List ℚ)) : MaxAbsScaler :=
  ⟨(List.range (rows.headD []).length).map (fun j =>
    if colMax rows j = 0 then 1 else colMax rows j)⟩

def MaxAbsScaler.transform (s : MaxAbsScaler) (x : List ℚ) : List ℚ :=
  List.zipWith (fun v m => v / m) x s.scale

/-- Arithmetic mean, the value a regression tree leaf stores and the way the
forest combines its trees. -/
def mean (l : List ℚ) : ℚ := l.sum / l.length

/-- A fitted regression decision tree: internal nodes route on one feature
against a threshold, leaves hold the training targets that reached them. -/
inductive Tree where
  | leaf (vals : List ℚ)
  | node (feature : Nat) (threshold : ℚ) (left right : Tree)
  deriving DecidableEq

def Tree.leafVals : Tree → List ℚ → List ℚ
  | .leaf vs, _ => vs
  | .node i thr l r, x => if x.getD i 0 ≤ thr then Tree.leafVals l x else Tree.leafVals r x

def Tree.predictOne (t : Tree) (x : List ℚ) : ℚ := mean (t.leafVals x)

/-- A fitted RandomForestRegressor: its list of trees. -/
structure Forest where
  trees : List Tree
  deriving DecidableEq

/-- RandomForestRegressor.predict on one row: average of the trees. -/
def Forest.predictOne (f : Forest) (x : List ℚ) : ℚ :=
  mean (f.trees.map (fun t => t.predictOne x))

/-- A tree is a possible result of fitting on targets ys: every leaf holds a
nonempty list of values drawn from ys. -/
def Tree.validForB : Tree → List ℚ → Bool
  | .leaf vs, ys => (!vs.isEmpty) && vs.all (fun v => ys.contains v)
  | .node _ _ l r, ys => l.validForB ys && r.validForB ys

/-- A forest is a possible result of RandomForestRegressor(n_estimators=10)
fit on targets ys. -/
def Forest.validForB (f : Forest) (ys : List ℚ) : Bool :=
  (f.trees.length == 10) && f.trees.all (fun t => t.validForB ys)

/-- The shared fitted state: vectorizer vocabulary, encoder categories for
the four columns in DataFrame order Year, Platform, Genre, Publisher, the
scaler, and the model. -/
structure Pipeline where
  vocab : List String
  yearCats : List Int
  platformCats : List String
  genreCats : List String
  publisherCats : List String
  scaler : MaxAbsScaler
  forest : Forest
  deriving DecidableEq

/-- One encoded row: hstack of the title count vector and the four one-hot
blocks, in the order the encoder sees the columns. -/
def encodeRow (vocab : List String) (yearCats : List Int)
    (platformCats genreCats publisherCats : List String)
    (name : String) (year : Int) (platform genre publisher : String) : List ℚ :=
  countTransform vocab name ++ oneHot yearCats year ++ oneHot platformCats platform
    ++ oneHot genreCats genre ++ oneHot publisherCats publisher

/-- The transform step of MainWindow.predict before the model is consulted:
vectorize, one-hot encode, hstack, normalize. -/
def featureVector (p : Pipeline) (title : String) (year : Int)
    (platform genre publisher : String) : List ℚ :=
  encodeRow p.vocab p.yearCats p.platformCats p.genreCats p.publisherCats
    title year platform genre publisher

def transformStep (p : Pipeline) (title : String) (year : Int)
    (platform genre publisher : String) : List ℚ :=
  p.scaler.transform (featureVector p title year platform genre publisher)

/-- numpy round to the nearest integer, ties to even. -/
def roundHalfEven (x : ℚ) : ℤ :=
  if x - ⌊x⌋ < 1 / 2 then ⌊x⌋
  else if 1 / 2 < x - ⌊x⌋ then ⌊x⌋ + 1
  else if ⌊x⌋ % 2 = 0 then ⌊x⌋ else ⌊x⌋ + 1

/-- numpy scalar .round(4). -/
def round4 (x : ℚ) : ℚ := (roundHalfEven (x * 10000) : ℚ) / 10000

/-- Python int(s): strip surrounding whitespace, optional sign, decimal
digits. Underscore digit separators are not modelled. -/
def pyStrip (l : List Char) : List Char :=
  ((l.dropWhile Char.isWhitespace).reverse.dropWhile Char.isWhitespace).reverse

def digitsVal : List Char → Option Nat
  | [] => none
  | l =>
    if l.all Char.isDigit then
      some (l.foldl (fun acc c => acc * 10 + (c.toNat - 48)) 0)
    else none

def parseIntPy (s : String) : Option Int :=
  match pyStrip s.data with
  | '-' :: rest => (digitsVal rest).map (fun n => -(n : Int))
  | '+' :: rest => (digitsVal rest).map (fun n => (n : Int))
  | l => (digitsVal l).map (fun n => (n : Int))

/-- Outcome of one call to MainWindow.predict: an uncaught exception, the
printed rejection followed by return, or a prediction written to the output
field. -/
inductive RequestOutcome where
  | raised (msg : String)
  | rejected (msg : String)
  | predicted (value : ℚ)
  deriving DecidableEq

def typeErrorMsg : String := "TypeError: int() argument cannot be None"

def valueErrorMsg : String := "ValueError: invalid literal for int() with base 10"

def invalidInputMsg : String := "One or more of the input values is invalid. Please try again."

/-- MainWindow.predict, threading the shared fitted state explicitly. The
widget values are modelled as Option String, none standing for Python None.
The body follows the source order: year is converted with int() first, so a
missing or unparseable year text raises before the pd.isnull check runs;
pd.isnull is True on None and False on every str and int, so the check
reduces to a None test on the remaining four values. The handler reads the
global fitted objects and never rebinds them, so the state out is the state
in. -/
def predictRun (p : Pipeline) (title yearText platform genre publisher : Option String) :
    RequestOutcome × Pipeline :=
  match yearText with
  | none => (.raised typeErrorMsg, p)
  | some yt =>
    match parseIntPy yt with
    | none => (.raised valueErrorMsg, p)
    | some year =>
      if title.isNone || platform.isNone || genre.isNone || publisher.isNone then
        (.rejected invalidInputMsg, p)
      else
        let x := transformStep p (title.getD "") year (platform.getD "")
          (genre.getD "") (publisher.getD "")
        (.predicted (round4 (p.forest.predictOne x)), p)

def predict (p : Pipeline) (title yearText platform genre publisher : Option String) :
    RequestOutcome :=
  (predictRun p title yearText platform genre publisher).1

/-- Outcome of the startup routine main: an exception propagated out of it,
the printed diagnostic followed by return, or a fitted pipeline behind a
shown window. -/
inductive StartupOutcome where
  | raised (msg : String)
  | aborted (msg : String)
  | ready (p : Pipeline)
  deriving DecidableEq

def emptyVocabMsg : String :=
  "ValueError: empty vocabulary; perhaps the documents only contain stop words"

def emptyDataMsg : String :=
  "Unable to read data source file. Please make sure you have the dataset in the correct position and try again."

/-- The fitted pipeline main builds from a nonempty table, given the forest
the randomised library fit returns. The slice x_normalized[:len(y)] is the
identity here because the matrix and the target column come from the same
table. -/
def fittedPipeline (data : Table) (forest : Forest) : Pipeline :=
  let vocab := vocabFit (data.map (fun r => r.name))
  let yearCats := dedupSortInt (data.map (fun r => r.year))
  let platformCats := dedupSortStr (data.map (fun r => r.platform))
  let genreCats := dedupSortStr (data.map (fun r => r.genre))
  let publisherCats := dedupSortStr (data.map (fun r => r.publisher))
  let rows := data.map (fun r => encodeRow vocab yearCats platformCats genreCats publisherCats
    r.name r.year r.platform r.genre r.publisher)
  ⟨vocab, yearCats, platformCats, genreCats, publisherCats, MaxAbsScaler.fit rows, forest⟩

/-- The fit sequence of main after the emptiness check: CountVectorizer.fit
raises when no title yields any token, otherwise every later step succeeds. -/
def fitPipeline (data : Table) (forest : Forest) : Except String Pipeline :=
  if (vocabFit (data.map (fun r => r.name))).isEmpty then .error emptyVocabMsg
  else .ok (fittedPipeline data forest)

/-- The startup routine main. pd.read_csv is modelled by its result: ok on a
readable file, error on an unreadable one; main wraps no handler around it,
so a read error propagates. An empty table is reported and main returns. -/
def main (readResult : Except String Table) (forest : Forest) : StartupOutcome :=
  match readResult with
  | .error e => .raised e
  | .ok data =>
    if data.isEmpty then .aborted emptyDataMsg
    else
      match fitPipeline data forest with
      | .error e => .raised e
      | .ok p => .ready p

/-- The year combo box items: str(year) for year in range(1980, 2023). -/
def yearItems : List String := (List.range 43).map (fun i => toString (1980 + i))

/-- The platform combo box items: sorted unique Platform column values. -/
def platformItems (data : Table) : List String :=
  dedupSortStr (data.map (fun r => r.platform))

/-- The genre combo box items: sorted unique Genre column values. -/
def genreItems (data : Table) : List String :=
  dedupSortStr (data.map (fun r => r.genre))

/-- The publisher combo box items: sorted unique Publisher column values. -/
def publisherItems (data : Table) : List String :=
  dedupSortStr (data.map (fun r => r.publisher))

/-- Number of fractional digits str() shows for a prediction rounded to at
most four decimals: trailing zeros are dropped but Python always prints at
least one fractional digit for a float. -/
def fracLen (x : ℚ) : Nat :=
  if x.den = 1 then 0
  else if (x * 10).den = 1 then 1
  else if (x * 100).den = 1 then 2
  else if (x * 1000).den = 1 then 3
  else 4

def displayFracDigits (x : ℚ) : Nat := max 1 (fracLen x)

def displayedDigits : RequestOutcome → Option Nat
  | .predicted v => some (displayFracDigits v)
  | _ => none

/-- The two-row training table of the end-to-end scenario in the spec. -/
def specTable : Table :=
  [⟨"Pong", 1980, "Atari", "Action", "Atari", 5⟩,
   ⟨"Pac-Man", 1981, "Atari", "Puzzle", "Namco", 7⟩]

/-- A ten-tree forest in which every tree is the single leaf holding v. -/
def leafForest (v : ℚ) : Forest := ⟨List.replicate 10 (Tree.leaf [v])⟩

/-- A concrete fitted pipeline over the scenario table. -/
def cp : Pipeline := fittedPipeline specTable (leafForest 5)

/-- A table whose single title has no token of two or more word characters. -/
def badTable : Table := [⟨"X", 1980, "Atari", "Action", "Atari", 5⟩]

theorem mem_insertSorted [DecidableEq α] (le : α → α → Bool) (a b : α) (l : List α) :
    a ∈ insertSorted le b l ↔ a = b ∨ a ∈ l := by
  induction l with
  | nil => simp [insertSorted]
  | cons c cs ih =>
    unfold insertSorted
    split_ifs with h1 h2
    · subst h1
      simp [List.mem_cons]
    · simp [List.mem_cons]
    · simp only [List.mem_cons, ih]
      tauto

theorem mem_dedupSort [DecidableEq α] (le : α → α → Bool) (l : List α) (a : α) :
    a ∈ dedupSort le l ↔ a ∈ l := by
  induction l with
  | nil => simp [dedupSort]
  | cons c cs ih =>
    show a ∈ insertSorted le c (dedupSort le cs) ↔ _
    rw [mem_insertSorted, ih]
    simp [List.mem_cons]

theorem oneHot_unseen [DecidableEq α] (cats : List α) (v : α) (h : v ∉ cats) :
    oneHot cats v = List.replicate cats.length 0 := by
  induction cats with
  | nil => simp [oneHot]
  | cons c cs ih =>
    have h1 : ¬ c = v := fun e => h (by simp [e])
    have h2 : v ∉ cs := fun m => h (List.mem_cons_of_mem _ m)
    simp [oneHot, h1, List.replicate_succ]
    exact ih h2

theorem oneHot_sum_nonneg [DecidableEq α] (cats : List α) (v : α) :
    0 ≤ (oneHot cats v).sum := by
  apply List.sum_nonneg
  intro q hq
  obtain ⟨c, _, rfl⟩ := List.mem_map.mp hq
  split <;> norm_num

theorem oneHot_sum_ge_one [DecidableEq α] (cats : List α) (v : α) (h : v ∈ cats) :
    1 ≤ (oneHot cats v).sum := by
  induction cats with
  | nil => cases h
  | cons c cs ih =>
    rw [oneHot, List.map_cons, List.sum_cons]
    by_cases hc : c = v
    · have := oneHot_sum_nonneg cs v
      rw [if_pos hc]
      unfold oneHot at this
      linarith
    · rcases List.mem_cons.mp h with h1 | h1
      · exact absurd h1.symm hc
      · have := ih h1
        unfold oneHot at this
        rw [if_neg hc]
        linarith

theorem oneHot_ne_zeroVector [DecidableEq α] (cats : List α) (v : α) (h : v ∈ cats) :
    oneHot cats v ≠ List.replicate cats.length 0 := by
  intro e
  have h1 := oneHot_sum_ge_one cats v h
  rw [e] at h1
  simp [List.sum_replicate] at h1
  linarith

theorem tokenizeAux_all_nonword (l : List Char) (acc : List String)
    (h : ∀ c ∈ l, isWordChar c = false) : tokenizeAux l [] acc = acc := by
  induction l generalizing acc with
  | nil => simp [tokenizeAux, pushToken]
  | cons c cs ih =>
    unfold tokenizeAux
    rw [if_neg (by simp [h c (List.mem_cons_self c cs)])]
    rw [show pushToken [] acc = acc from by simp [pushToken]]
    exact ih acc (fun c0 hc0 => h c0 (List.mem_cons_of_mem _ hc0))

theorem isWordChar_toLower_ws (c : Char) (h : c.isWhitespace = true) :
    isWordChar c.toLower = false := by
  have h4 : ((c = ' ' ∨ c = '\t') ∨ c = '\r') ∨ c = '\n' := by
    simpa [Char.isWhitespace] using h
  rcases h4 with ((rfl | rfl) | rfl) | rfl <;> decide

theorem tokenize_whitespace (s : String) (h : ∀ c ∈ s.data, c.isWhitespace = true) :
    tokenize s = [] := by
  unfold tokenize
  apply tokenizeAux_all_nonword
  intro c hc
  obtain ⟨c0, hc0, rfl⟩ := List.mem_map.mp hc
  exact isWordChar_toLower_ws c0 (h c0 hc0)

theorem countTransform_zeroVector (vocab : List String) (doc : String)
    (h : tokenize doc = []) :
    countTransform vocab doc = List.replicate vocab.length 0 := by
  unfold countTransform
  rw [h]
  induction vocab with
  | nil => rfl
  | cons w ws ih => simp [List.replicate_succ, ih]

theorem mean_nonneg (l : List ℚ) (h : ∀ v ∈ l, 0 ≤ v) : 0 ≤ mean l :=
  div_nonneg (List.sum_nonneg h) (Nat.cast_nonneg _)

theorem tree_predictOne_nonneg (t : Tree) (ys : List ℚ) (x : List ℚ)
    (hv : t.validForB ys = true) (hy : ∀ v ∈ ys, 0 ≤ v) : 0 ≤ t.predictOne x := by
  induction t with
  | leaf vs =>
    unfold Tree.validForB at hv
    rw [Bool.and_eq_true] at hv
    apply mean_nonneg
    intro v hv2
    have h3 := List.all_eq_true.mp hv.2 v (by simpa [Tree.leafVals] using hv2)
    exact hy v (by simpa using h3)
  | node i thr lt rt ihl ihr =>
    unfold Tree.validForB at hv
    rw [Bool.and_eq_true] at hv
    unfold Tree.predictOne Tree.leafVals
    split
    · exact ihl hv.1
    · exact ihr hv.2

theorem forest_predictOne_nonneg (f : Forest) (ys : List ℚ) (x : List ℚ)
    (hv : f.validForB ys = true) (hy : ∀ v ∈ ys, 0 ≤ v) : 0 ≤ f.predictOne x := by
  unfold Forest.validForB at hv
  rw [Bool.and_eq_true] at hv
  apply mean_nonneg
  intro v hv2
  obtain ⟨t, ht, rfl⟩ := List.mem_map.mp hv2
  exact tree_predictOne_nonneg t ys x (List.all_eq_true.mp hv.2 t ht) hy

theorem roundHalfEven_nonneg (x : ℚ) (h : 0 ≤ x) : (0 : ℤ) ≤ roundHalfEven x := by
  have hf : (0 : ℤ) ≤ ⌊x⌋ := Int.le_floor.mpr (by exact_mod_cast h)
  unfold roundHalfEven
  split_ifs <;> omega

theorem round4_nonneg (x : ℚ) (h : 0 ≤ x) : 0 ≤ round4 x := by
  unfold round4
  apply div_nonneg _ (by norm_num)
  exact_mod_cast roundHalfEven_nonneg _ (by positivity)

theorem predict_eq_of_parse (p : Pipeline) (t yt pl g pub : String) (y : Int)
    (hy : parseIntPy yt = some y) :
    predict p (some t) (some yt) (some pl) (some g) (some pub)
      = .predicted (round4 (p.forest.predictOne (transformStep p t y pl g pub))) := by
  simp [predict, predictRun, hy]

theorem predictRun_snd (p : Pipeline) (title yearText platform genre publisher : Option String) :
    (predictRun p title yearText platform genre publisher).2 = p := by
  cases yearText with
  | none => rfl
  | some yt =>
    cases hp : parseIntPy yt with
    | none => simp only [predictRun, hp]
    | some y =>
      simp only [predictRun, hp]
      split <;> rfl

theorem leafForest_predictOne (v : ℚ) (x : List ℚ) : (leafForest v).predictOne x = v := by
  simp [leafForest, Forest.predictOne, Tree.predictOne, Tree.leafVals, mean,
    List.map_replicate, List.sum_replicate]
  ring

theorem main_ready_inv (data : Table) (forest : Forest) (p : Pipeline)
    (h : main (.ok data) forest = .ready p) :
    data.isEmpty = false ∧ (vocabFit (data.map (fun r => r.name))).isEmpty = false
      ∧ p = fittedPipeline data forest := by
  simp only [main] at h
  by_cases h1 : data.isEmpty = true
  · rw [if_pos h1] at h
    exact absurd h (by simp)
  · rw [if_neg h1] at h
    simp only [fitPipeline] at h
    by_cases h2 : (vocabFit (data.map (fun r => r.name))).isEmpty = true
    · rw [if_pos h2] at h
      simp at h
    · rw [if_neg h2] at h
      simp only [StartupOutcome.ready.injEq] at h
      exact ⟨by simpa using h1, by simpa using h2, h.symm⟩

theorem round4_int (n : ℤ) : round4 (n : ℚ) = n := by
  have h1 : ((n : ℚ) * 10000) = ((n * 10000 : ℤ) : ℚ) := by push_cast; ring
  unfold round4 roundHalfEven
  rw [h1, Int.floor_intCast, sub_self]
  rw [if_pos (by norm_num : (0 : ℚ) < 1 / 2)]
  push_cast
  rw [mul_div_assoc]
  norm_num

theorem yearItems_parse (s : String) (hs : s ∈ yearItems) :
    ∃ y, parseIntPy s = some y ∧ 1980 ≤ y ∧ y ≤ 2022 := by
  have hall : yearItems.all (fun s => match parseIntPy s with
      | some y => decide (1980 ≤ y ∧ y ≤ 2022)
      | none => false) = true := by decide
  have hthis := List.all_eq_true.mp hall s hs
  cases hp : parseIntPy s with
  | none => rw [hp] at hthis; cases hthis
  | some y =>
    rw [hp] at hthis
    exact ⟨y, rfl, of_decide_eq_true hthis⟩

/-- Claim C1, counterexample: a request whose year field is blank is not
rejected with a diagnostic — the int() conversion raises an uncaught
ValueError before the validation check, so the claim that such a request is
rejected (report, do not crash) is false on the code. No prediction is
produced, but the failure mode is a crash of the handler, not a rejection. -/
theorem c1_blank_year_counterexample :
    predict cp (some "Pong") (some "") (some "Atari") (some "Action") (some "Atari")
      = RequestOutcome.raised valueErrorMsg
    ∧ ∀ d, predict cp (some "Pong") (some "") (some "Atari") (some "Action") (some "Atari")
      ≠ RequestOutcome.rejected d := by
  have h1 : predict cp (some "Pong") (some "") (some "Atari") (some "Action") (some "Atari")
      = RequestOutcome.raised valueErrorMsg := by decide
  refine ⟨h1, fun d hd => ?_⟩
  rw [h1] at hd
  exact RequestOutcome.noConfusion hd

/-- Claim C1 as amended: the complete behaviour of the validation boundary of
MainWindow.predict. A missing year raises a TypeError from int(); a year text
that does not parse as an integer raises a ValueError from int(); both happen
before the pd.isnull check and the encoder, so no prediction is produced and
the Predictor is never invoked, but no diagnostic rejection is reported
either. Only a null value in one of the other four fields triggers the
diagnostic rejection, and empty strings are never rejected: any request with
present fields and a parseable year reaches the encoder and the model. -/
theorem c1_request_validation (p : Pipeline)
    (title yearText platform genre publisher : Option String) :
    (yearText = none →
      predict p title yearText platform genre publisher = .raised typeErrorMsg)
    ∧ (∀ s, yearText = some s → parseIntPy s = none →
      predict p title yearText platform genre publisher = .raised valueErrorMsg)
    ∧ (∀ s y, yearText = some s → parseIntPy s = some y →
      (title.isNone || platform.isNone || genre.isNone || publisher.isNone) = true →
      predict p title yearText platform genre publisher = .rejected invalidInputMsg)
    ∧ (∀ s y t pl0 g0 pub0, yearText = some s → parseIntPy s = some y →
      title = some t → platform = some pl0 → genre = some g0 → publisher = some pub0 →
      predict p title yearText platform genre publisher
        = .predicted (round4 (p.forest.predictOne (transformStep p t y pl0 g0 pub0)))) := by
  refine ⟨?_, ?_, ?_, ?_⟩
  · rintro rfl
    rfl
  · rintro s rfl hp
    simp [predict, predictRun, hp]
  · rintro s y rfl hp hnull
    simp [predict, predictRun, hp, hnull]
  · rintro s y t pl0 g0 pub0 rfl hp rfl rfl rfl rfl
    exact predict_eq_of_parse p t s pl0 g0 pub0 y hp

/-- Witness for the amended C1 theorem at a concrete request. -/
theorem c1_request_validation_witness :
    predict cp (some "Pong") none (some "Atari") (some "Action") (some "Atari")
      = RequestOutcome.raised typeErrorMsg :=
  (c1_request_validation cp (some "Pong") none (some "Atari") (some "Action") (some "Atari")).1 rfl

/-- Claim C2: a categorical value of Year, Platform, Genre or Publisher that
never appeared in the training data yields the all-zero one-hot block for
that field (OneHotEncoder with handle_unknown set to ignore), and the request
still produces a numeric prediction: an unseen category never raises. -/
theorem c2_unseen_category (p : Pipeline) (title yt platform genre publisher : String)
    (y : Int) (hy : parseIntPy yt = some y) :
    (y ∉ p.yearCats → oneHot p.yearCats y = List.replicate p.yearCats.length 0)
    ∧ (platform ∉ p.platformCats →
      oneHot p.platformCats platform = List.replicate p.platformCats.length 0)
    ∧ (genre ∉ p.genreCats →
      oneHot p.genreCats genre = List.replicate p.genreCats.length 0)
    ∧ (publisher ∉ p.publisherCats →
      oneHot p.publisherCats publisher = List.replicate p.publisherCats.length 0)
    ∧ predict p (some title) (some yt) (some platform) (some genre) (some publisher)
        = .predicted (round4 (p.forest.predictOne (transformStep p title y platform genre publisher))) :=
  ⟨fun h => oneHot_unseen _ _ h, fun h => oneHot_unseen _ _ h, fun h => oneHot_unseen _ _ h,
   fun h => oneHot_unseen _ _ h, predict_eq_of_parse p title yt platform genre publisher y hy⟩

/-- Witness for C2: the platform PS2 does not occur in the scenario training
table; its one-hot block is all zero and the request is still answered. -/
theorem c2_unseen_category_witness :
    oneHot cp.platformCats "PS2" = List.replicate cp.platformCats.length 0
    ∧ predict cp (some "Pong") (some "1980") (some "PS2") (some "Action") (some "Atari")
        = .predicted (round4 (cp.forest.predictOne (transformStep cp "Pong" 1980 "PS2" "Action" "Atari"))) :=
  ⟨(c2_unseen_category cp "Pong" "1980" "PS2" "Action" "Atari" 1980 (by decide)).2.1 (by decide),
   (c2_unseen_category cp "Pong" "1980" "PS2" "Action" "Atari" 1980 (by decide)).2.2.2.2⟩

/-- Claim C3, counterexample: when the training file cannot be read,
pd.read_csv raises and main wraps no handler around it, so the exception
propagates out of startup instead of being reported as a diagnostic; the
claim that an unreadable file leads to a printed diagnostic and graceful
termination is false on the code. -/
theorem c3_unreadable_counterexample :
    main (.error "FileNotFoundError") (leafForest 5) = .raised "FileNotFoundError"
    ∧ ∀ m, main (.error "FileNotFoundError") (leafForest 5) ≠ StartupOutcome.aborted m :=
  ⟨rfl, fun _ hm => StartupOutcome.noConfusion hm⟩

/-- Claim C3 as amended: an unreadable training file raises upward out of
main (no graceful diagnostic), while an empty table is reported with the
printed diagnostic and main returns; in both cases no fitted pipeline is
constructed. -/
theorem c3_startup_errors (forest : Forest) :
    (∀ e, main (.error e) forest = .raised e)
    ∧ (∀ data : Table, data.isEmpty = true → main (.ok data) forest = .aborted emptyDataMsg)
    ∧ (∀ e p, main (.error e) forest ≠ .ready p)
    ∧ (∀ (data : Table) p, data.isEmpty = true → main (.ok data) forest ≠ .ready p) := by
  refine ⟨fun e => rfl, fun data h => by simp [main, h],
    fun e p hp => StartupOutcome.noConfusion hp, ?_⟩
  intro data p h hc
  rw [show main (.ok data) forest = .aborted emptyDataMsg from by simp [main, h]] at hc
  exact StartupOutcome.noConfusion hc

/-- Witness for the amended C3 theorem: the empty table aborts startup with
the diagnostic. -/
theorem c3_startup_errors_witness :
    main (.ok ([] : Table)) (leafForest 5) = .aborted emptyDataMsg :=
  (c3_startup_errors (leafForest 5)).2.1 [] rfl

/-- Claim C4, counterexample: the displayed result is not always expressed to
exactly 4 decimal digits. On the concrete pipeline the prediction is the
integer 5; str() of the rounded float shows one fractional digit (5.0), not
four, because trailing zeros are dropped. -/
theorem c4_display_counterexample :
    predict cp (some "Pong") (some "1980") (some "Atari") (some "Action") (some "Atari")
      = RequestOutcome.predicted 5
    ∧ displayedDigits (predict cp (some "Pong") (some "1980") (some "Atari") (some "Action") (some "Atari"))
        = some 1 := by
  have hcp : cp.forest.predictOne (transformStep cp "Pong" 1980 "Atari" "Action" "Atari") = 5 :=
    leafForest_predictOne 5 _
  have h5 : predict cp (some "Pong") (some "1980") (some "Atari") (some "Action") (some "Atari")
      = RequestOutcome.predicted 5 := by
    rw [predict_eq_of_parse cp "Pong" "1980" "Atari" "Action" "Atari" 1980 (by decide), hcp]
    rw [show (5 : ℚ) = ((5 : ℤ) : ℚ) from by norm_num, round4_int]
  refine ⟨h5, ?_⟩
  rw [h5]
  decide

/-- Claim C4 as amended: for every accepted request the returned prediction
is the model scalar output rounded to 4 decimal digits, and the display shows
at most 4 fractional digits — not always exactly 4, since str() drops
trailing zeros. -/
theorem c4_rounding (p : Pipeline) (title yt platform genre publisher : String)
    (y : Int) (hy : parseIntPy yt = some y) :
    predict p (some title) (some yt) (some platform) (some genre) (some publisher)
      = .predicted (round4 (p.forest.predictOne (transformStep p title y platform genre publisher)))
    ∧ ∀ x : ℚ, displayFracDigits (round4 x) ≤ 4 := by
  refine ⟨predict_eq_of_parse p title yt platform genre publisher y hy, fun x => ?_⟩
  unfold displayFracDigits fracLen
  split_ifs <;> decide

/-- Witness for the amended C4 theorem at a concrete request. -/
theorem c4_rounding_witness :
    predict cp (some "Pong") (some "1980") (some "Atari") (some "Action") (some "Atari")
      = .predicted (round4 (cp.forest.predictOne (transformStep cp "Pong" 1980 "Atari" "Action" "Atari"))) :=
  (c4_rounding cp "Pong" "1980" "Atari" "Action" "Atari" 1980 (by decide)).1

/-- Claim C5: the transform step is pure — the fitted state after any request
(succeeding or failing) is the state before it, and transforming on the state
left by a request equals transforming on the original state, so two
invocations on the same fitted state and tuple give bit-identical vectors.
In the source the handler reads the global vectorizer, encoder, scaler and
model and never rebinds them, and the sklearn transform and predict methods
do not mutate their fitted attributes; the embedding threads the state
explicitly and the theorem records that it is returned unchanged. -/
theorem c5_transform_pure (p : Pipeline) (title yearText platform genre publisher : Option String)
    (t : String) (y : Int) (pl g pub : String) :
    (predictRun p title yearText platform genre publisher).2 = p
    ∧ transformStep ((predictRun p title yearText platform genre publisher).2) t y pl g pub
        = transformStep p t y pl g pub := by
  refine ⟨predictRun_snd p title yearText platform genre publisher, ?_⟩
  rw [predictRun_snd]

/-- Claim C6: when every training target is non-negative, every accepted
request returns a non-negative prediction, for every forest the randomised
fit can produce on those targets (leaves average nonempty subsets of the
targets); and the same predict function can return a negative value for a
model fitted on negative targets, so the non-negativity comes from the
training distribution and not from a hard clamp in the implementation. -/
theorem c6_nonnegative (p : Pipeline) (ys : List ℚ) (title yt platform genre publisher : String)
    (y : Int) (hy : parseIntPy yt = some y) (hys : ∀ v ∈ ys, 0 ≤ v)
    (hfit : p.forest.validForB ys = true) :
    (∃ v, predict p (some title) (some yt) (some platform) (some genre) (some publisher)
        = .predicted v ∧ 0 ≤ v)
    ∧ (∃ (q : Pipeline) (w : ℚ),
        predict q (some title) (some yt) (some platform) (some genre) (some publisher)
          = .predicted w ∧ w < 0) := by
  constructor
  · exact ⟨_, predict_eq_of_parse p title yt platform genre publisher y hy,
      round4_nonneg _ (forest_predictOne_nonneg p.forest ys _ hfit hys)⟩
  · refine ⟨fittedPipeline specTable (leafForest (-1)), -1, ?_, by norm_num⟩
    rw [predict_eq_of_parse _ title yt platform genre publisher y hy]
    have hneg : (fittedPipeline specTable (leafForest (-1))).forest.predictOne
        (transformStep (fittedPipeline specTable (leafForest (-1))) title y platform genre publisher)
          = -1 := leafForest_predictOne (-1) _
    rw [hneg]
    rw [show ((-1 : ℚ)) = ((-1 : ℤ) : ℚ) from by norm_num, round4_int]

/-- Witness for C6 at the scenario pipeline with targets drawn from [5]. -/
theorem c6_nonnegative_witness :
    ∃ v, predict cp (some "Pong") (some "1980") (some "Atari") (some "Action") (some "Atari")
      = RequestOutcome.predicted v ∧ 0 ≤ v :=
  (c6_nonnegative cp [5] "Pong" "1980" "Atari" "Action" "Atari" 1980
    (by decide) (by decide) (by decide)).1

/-- Claim C7: an empty or all-whitespace title is not a validation failure —
the request is accepted, its bag-of-words block is entirely zero, and a
numeric prediction is produced. -/
theorem c7_empty_title (p : Pipeline) (title yt platform genre publisher : String)
    (y : Int) (hy : parseIntPy yt = some y)
    (ht : ∀ c ∈ title.data, c.isWhitespace = true) :
    countTransform p.vocab title = List.replicate p.vocab.length 0
    ∧ predict p (some title) (some yt) (some platform) (some genre) (some publisher)
        = .predicted (round4 (p.forest.predictOne (transformStep p title y platform genre publisher))) :=
  ⟨countTransform_zeroVector _ _ (tokenize_whitespace _ ht),
   predict_eq_of_parse p title yt platform genre publisher y hy⟩

/-- Witness for C7 at the empty title. -/
theorem c7_empty_title_witness :
    countTransform cp.vocab "" = List.replicate cp.vocab.length 0
    ∧ predict cp (some "") (some "1980") (some "Atari") (some "Action") (some "Atari")
        = .predicted (round4 (cp.forest.predictOne (transformStep cp "" 1980 "Atari" "Action" "Atari"))) :=
  c7_empty_title cp "" "1980" "Atari" "Action" "Atari" 1980 (by decide) (by decide)

/-- Claim C8: the normalizer transform divides entry j of a row by the
maximum absolute value of column j observed at fit time; a column whose
maximum was zero has scale one, so the entry is left unscaled and no division
by zero ever happens (every stored scale entry is nonzero). -/
theorem c8_maxabs (rows : List (List ℚ)) (x : List ℚ) (j : Nat)
    (hx : j < x.length) (hw : j < (rows.headD []).length) :
    ((MaxAbsScaler.fit rows).transform x).getD j 0
      = (if colMax rows j = 0 then x.getD j 0 else x.getD j 0 / colMax rows j)
    ∧ (MaxAbsScaler.fit rows).scale.getD j 1 ≠ 0 := by
  have hs : (MaxAbsScaler.fit rows).scale
      = (List.range (rows.headD []).length).map
        (fun j => if colMax rows j = 0 then 1 else colMax rows j) := rfl
  have hj2 : j < (MaxAbsScaler.fit rows).scale.length := by
    rw [hs]
    simpa using hw
  have hsj : (MaxAbsScaler.fit rows).scale.getD j 1
      = (if colMax rows j = 0 then 1 else colMax rows j) := by
    rw [List.getD_eq_getElem _ _ hj2]
    simp [hs, List.getElem_map, List.getElem_range]
  have hjz : j < (List.zipWith (fun v m => v / m) x (MaxAbsScaler.fit rows).scale).length := by
    rw [List.length_zipWith]
    omega
  have htr : ((MaxAbsScaler.fit rows).transform x).getD j 0
      = x.getD j 0 / (MaxAbsScaler.fit rows).scale.getD j 1 := by
    unfold MaxAbsScaler.transform
    rw [List.getD_eq_getElem _ _ hjz, List.getElem_zipWith,
      List.getD_eq_getElem _ _ hx, List.getD_eq_getElem _ _ hj2]
  constructor
  · rw [htr, hsj]
    split_ifs with h0
    · rw [div_one]
    · rfl
  · rw [hsj]
    split_ifs with h0
    · norm_num
    · exact h0

/-- Witness for C8 on a one-row matrix whose first column maximum is zero. -/
theorem c8_maxabs_witness :
    ((MaxAbsScaler.fit [[(0 : ℚ), 2]]).transform [3, 4]).getD 0 0
      = (if colMax [[(0 : ℚ), 2]] 0 = 0 then ([(3 : ℚ), 4]).getD 0 0
        else ([(3 : ℚ), 4]).getD 0 0 / colMax [[(0 : ℚ), 2]] 0)
    ∧ (MaxAbsScaler.fit [[(0 : ℚ), 2]]).scale.getD 0 1 ≠ 0 :=
  c8_maxabs [[0, 2]] [3, 4] 0 (by decide) (by decide)

/-- Claim C9, counterexample: a valid one-row table with a non-empty target
column on which CountVectorizer finds no token (the single title is one
character) makes the fit sequence raise the empty-vocabulary error instead of
completing, so the claim that fitting succeeds for every valid table with at
least one row is false on the code. -/
theorem c9_empty_vocab_counterexample :
    main (.ok badTable) (leafForest 5) = .raised emptyVocabMsg
    ∧ ∀ p, main (.ok badTable) (leafForest 5) ≠ .ready p := by
  have h1 : main (.ok badTable) (leafForest 5) = .raised emptyVocabMsg := by decide
  exact ⟨h1, fun p hp => by rw [h1] at hp; exact StartupOutcome.noConfusion hp⟩

/-- Claim C9 as amended: for every nonempty training table whose titles yield
at least one vectorizer token, the startup fit sequence completes and yields
a Ready pipeline, which then answers every well-formed prediction request. -/
theorem c9_fit_succeeds (data : Table) (forest : Forest)
    (hne : data.isEmpty = false)
    (hv : (vocabFit (data.map (fun r => r.name))).isEmpty = false) :
    main (.ok data) forest = .ready (fittedPipeline data forest)
    ∧ ∀ title yt platform genre publisher y, parseIntPy yt = some y →
        ∃ v, predict (fittedPipeline data forest) (some title) (some yt) (some platform)
          (some genre) (some publisher) = .predicted v := by
  refine ⟨by simp [main, fitPipeline, hne, hv], ?_⟩
  intro title yt platform genre publisher y hy
  exact ⟨_, predict_eq_of_parse _ title yt platform genre publisher y hy⟩

/-- Witness for the amended C9 theorem on the scenario table. -/
theorem c9_fit_succeeds_witness :
    main (.ok specTable) (leafForest 5) = .ready (fittedPipeline specTable (leafForest 5)) :=
  (c9_fit_succeeds specTable (leafForest 5) (by decide) (by decide)).1

/-- Claim C10: through the widget boundary, Platform, Genre and Publisher are
always values of the loaded table (the combo boxes are populated from its
unique column values) and the year text is one of the strings 1980 through
2022 — so the year always parses (the unparseable-year branch is unreachable
there), the three one-hot blocks for Platform, Genre and Publisher are never
all-zero (the unseen-category fallback can only be exercised by Year or by
the free-text title), and the request is answered with a prediction. -/
theorem c10_interface (data : Table) (forest : Forest) (p : Pipeline)
    (hready : main (.ok data) forest = .ready p)
    (title yt platform genre publisher : String)
    (hyt : yt ∈ yearItems) (hpl : platform ∈ platformItems data)
    (hg : genre ∈ genreItems data) (hpub : publisher ∈ publisherItems data) :
    (∃ y, parseIntPy yt = some y ∧ 1980 ≤ y ∧ y ≤ 2022)
    ∧ platform ∈ p.platformCats ∧ genre ∈ p.genreCats ∧ publisher ∈ p.publisherCats
    ∧ oneHot p.platformCats platform ≠ List.replicate p.platformCats.length 0
    ∧ oneHot p.genreCats genre ≠ List.replicate p.genreCats.length 0
    ∧ oneHot p.publisherCats publisher ≠ List.replicate p.publisherCats.length 0
    ∧ ∃ v, predict p (some title) (some yt) (some platform) (some genre) (some publisher)
        = .predicted v := by
  obtain ⟨h1, h2, hp⟩ := main_ready_inv data forest p hready
  subst hp
  obtain ⟨y, hy, h80, h22⟩ := yearItems_parse yt hyt
  have hpl2 : platform ∈ (fittedPipeline data forest).platformCats := hpl
  have hg2 : genre ∈ (fittedPipeline data forest).genreCats := hg
  have hpub2 : publisher ∈ (fittedPipeline data forest).publisherCats := hpub
  exact ⟨⟨y, hy, h80, h22⟩, hpl2, hg2, hpub2,
    oneHot_ne_zeroVector _ _ hpl2, oneHot_ne_zeroVector _ _ hg2,
    oneHot_ne_zeroVector _ _ hpub2,
    ⟨_, predict_eq_of_parse _ title yt platform genre publisher y hy⟩⟩

/-- Witness for C10 on the scenario table with widget-supplied values. -/
theorem c10_interface_witness :
    ∃ v, predict (fittedPipeline specTable (leafForest 5)) (some "Pong") (some "1980")
      (some "Atari") (some "Action") (some "Namco") = RequestOutcome.predicted v :=
  (c10_interface specTable (leafForest 5) (fittedPipeline specTable (leafForest 5)) (by decide)
    "Pong" "1980" "Atari" "Action" "Namco" (by decide) (by decide) (by decide) (by decide)).2.2.2.2.2.2.2

end SalesPrediction
